import Mathlib

/-!
# Verification of the async-tungstenite adaptation layer

A shallow embedding of the stream/sink state machine and the
split/reunite module of `src/src/lib.rs`. The protocol engine
(tungstenite's `WebSocket`) is an external collaborator: each embedded
operation takes the engine's outcome for the engine calls it may make
as an explicit argument, and additionally records the list of engine
operations it actually invoked, so that "no engine interaction" claims
become statements about that list.
-/

namespace AsyncWs

/-- Kinds of `std::io::Error`. The code only ever distinguishes
`WouldBlock` from every other kind. -/
inductive IoErrorKind where
  | wouldBlock
  | otherKind
  deriving DecidableEq, Repr

/-- The engine's error type (`tungstenite::error::Error`). The adaptation
layer distinguishes `ConnectionClosed`, `AlreadyClosed` and
`Io` (with its kind); every remaining variant is treated uniformly by
the code and is collapsed into `other`. -/
inductive WsError where
  | connectionClosed
  | alreadyClosed
  | io (k : IoErrorKind)
  | other
  deriving DecidableEq, Repr

/-- `Result<α, WsError>`. -/
inductive WsResult (α : Type) where
  | ok (a : α)
  | err (e : WsError)
  deriving DecidableEq, Repr

/-- A close frame payload (`tungstenite::protocol::CloseFrame`); its
contents are opaque to the adaptation layer. -/
structure CloseFrame where
  code : Nat
  reason : String
  deriving DecidableEq, Repr

/-- `tungstenite::protocol::Message`. -/
inductive Message where
  | text (s : String)
  | binary (b : List Nat)
  | ping (b : List Nat)
  | pong (b : List Nat)
  | close (f : Option CloseFrame)
  deriving DecidableEq, Repr

/-- `std::task::Poll`. -/
inductive Poll (α : Type) where
  | pending
  | ready (a : α)
  deriving DecidableEq, Repr

/-- The flag state of `WebSocketStream` (`src/src/lib.rs:232`): the
engine itself is external, so only the three bookkeeping flags are
state. -/
structure WebSocketStream where
  closing : Bool
  ended : Bool
  ready : Bool
  deriving DecidableEq, Repr

/-- `WebSocketStream::new` initialises `closing = false`, `ended = false`,
`ready = true`. -/
def initialStream : WebSocketStream :=
  { closing := false, ended := false, ready := true }

/-- An engine operation invoked by the adaptation layer. Each embedded
poll function returns the list of engine operations it performed, in
order. -/
inductive EngineOp where
  | readOp
  | writeOp (m : Message)
  | flushOp
  | closeOp
  deriving DecidableEq, Repr

/-- The outcome of one embedded operation: the value produced, the
updated flag state and the engine operations invoked. -/
structure Step (α : Type) where
  result : α
  ws : WebSocketStream
  ops : List EngineOp
  deriving DecidableEq, Repr

/-- Modelled from the spec: the `compat` module (declared as `mod compat`
but not present under `src/`) provides `cvt`, which converts the
engine's would-block outcome into asynchronous suspension
(`Poll::Pending`) and passes every other outcome through unchanged
(spec sections 4.1 and 7: a would-block condition is never a
user-visible error, always a suspension). -/
def cvt {α : Type} (r : WsResult α) : Poll (WsResult α) :=
  match r with
  | .err (.io .wouldBlock) => .pending
  | r => .ready r

/-- `WebSocketStream::poll_next` (`src/src/lib.rs:364`). `readResult` is
the outcome the engine's `read()` would produce if invoked. -/
def poll_next (s : WebSocketStream) (readResult : WsResult Message) :
    Step (Poll (Option (WsResult Message))) :=
  if s.ended then
    { result := .ready none, ws := s, ops := [] }
  else
    match cvt readResult with
    | .pending => { result := .pending, ws := s, ops := [.readOp] }
    | .ready (.ok v) =>
        { result := .ready (some (.ok v)), ws := s, ops := [.readOp] }
    | .ready (.err e) =>
        let s1 := { s with ended := true }
        match e with
        | .alreadyClosed | .connectionClosed =>
            { result := .ready none, ws := s1, ops := [.readOp] }
        | _ =>
            { result := .ready (some (.err e)), ws := s1, ops := [.readOp] }

/-- `WebSocketStream::poll_ready` (`src/src/lib.rs:396`). `flushResult`
is the outcome the engine's `flush()` would produce if invoked. -/
def poll_ready (s : WebSocketStream) (flushResult : WsResult Unit) :
    Step (Poll (WsResult Unit)) :=
  if s.ready then
    { result := .ready (.ok ()), ws := s, ops := [] }
  else
    match cvt flushResult with
    | .pending => { result := .pending, ws := s, ops := [.flushOp] }
    | .ready r =>
        { result := .ready r, ws := { s with ready := true }, ops := [.flushOp] }

/-- `WebSocketStream::start_send` (`src/src/lib.rs:409`). `writeResult`
is the outcome the engine's `write(item)` produces. -/
def start_send (s : WebSocketStream) (item : Message)
    (writeResult : WsResult Unit) : Step (WsResult Unit) :=
  match writeResult with
  | .ok _ =>
      { result := .ok (), ws := { s with ready := true }, ops := [.writeOp item] }
  | .err (.io .wouldBlock) =>
      { result := .ok (), ws := { s with ready := false }, ops := [.writeOp item] }
  | .err e =>
      { result := .err e, ws := { s with ready := true }, ops := [.writeOp item] }

/-- `WebSocketStream::poll_flush` (`src/src/lib.rs:429`). -/
def poll_flush (s : WebSocketStream) (flushResult : WsResult Unit) :
    Step (Poll (WsResult Unit)) :=
  match cvt flushResult with
  | .pending => { result := .pending, ws := s, ops := [.flushOp] }
  | .ready r =>
      let r1 : WsResult Unit :=
        match r with
        | .err .connectionClosed => .ok ()
        | other => other
      { result := .ready r1, ws := { s with ready := true }, ops := [.flushOp] }

/-- `WebSocketStream::poll_close` (`src/src/lib.rs:442`). The single
engine call made is `flush()` when `closing` is set and `close(None)`
otherwise; `engineResult` is its outcome. -/
def poll_close (s : WebSocketStream) (engineResult : WsResult Unit) :
    Step (Poll (WsResult Unit)) :=
  let s1 := { s with ready := true }
  let op : EngineOp := if s1.closing then .flushOp else .closeOp
  match engineResult with
  | .ok _ => { result := .ready (.ok ()), ws := s1, ops := [op] }
  | .err .connectionClosed => { result := .ready (.ok ()), ws := s1, ops := [op] }
  | .err (.io .wouldBlock) =>
      { result := .pending, ws := { s1 with closing := true }, ops := [op] }
  | .err e => { result := .ready (.err e), ws := s1, ops := [op] }

/-- The engine outcomes available to one poll of the compound send: the
flush that `poll_ready` may perform, the `write` that `start_send`
performs and the flush that `poll_flush` performs are three separate
engine invocations. -/
structure SendOracle where
  readyFlush : WsResult Unit
  writeRes : WsResult Unit
  finalFlush : WsResult Unit
  deriving DecidableEq, Repr

/-- The outcome of one poll of a compound send: poll result, updated
flags, the remaining pending message (`Send.msg`) and the engine
operations invoked. -/
structure SendStep where
  result : Poll (WsResult Unit)
  ws : WebSocketStream
  msg : Option Message
  ops : List EngineOp
  deriving DecidableEq, Repr

/-- `send_helper` (`src/src/lib.rs:562`): when a message is still
pending, run `poll_ready` (suspend on pending, propagate its error with
the message left in place), then hand the taken message to
`start_send`, then `poll_flush`; when no message is pending, only
`poll_flush`. -/
def send_helper (s : WebSocketStream) (msg : Option Message) (o : SendOracle) :
    SendStep :=
  match msg with
  | some m =>
    let pr := poll_ready s o.readyFlush
    match pr.result with
    | .pending => { result := .pending, ws := pr.ws, msg := some m, ops := pr.ops }
    | .ready (.err e) =>
        { result := .ready (.err e), ws := pr.ws, msg := some m, ops := pr.ops }
    | .ready (.ok _) =>
        let ss := start_send pr.ws m o.writeRes
        match ss.result with
        | .err e =>
            { result := .ready (.err e), ws := ss.ws, msg := none,
              ops := pr.ops ++ ss.ops }
        | .ok _ =>
            let fl := poll_flush ss.ws o.finalFlush
            { result := fl.result, ws := fl.ws, msg := none,
              ops := pr.ops ++ ss.ops ++ fl.ops }
  | none =>
    let fl := poll_flush s o.finalFlush
    { result := fl.result, ws := fl.ws, msg := none, ops := fl.ops }

/-- One poll of `WebSocketStream::send(m)` (`src/src/lib.rs:544`): the
`Send` future starts with `msg = Some(m)` and polls via `send_helper`. -/
def sendMessage (s : WebSocketStream) (m : Message) (o : SendOracle) : SendStep :=
  send_helper s (some m) o

/-- `WebSocketStream::close(msg)` (`src/src/lib.rs:319`):
`self.send(Message::Close(msg))`. -/
def closeWith (s : WebSocketStream) (f : Option CloseFrame) (o : SendOracle) :
    SendStep :=
  sendMessage s (Message.close f) o

/-- One poll of `WebSocketSender::send(m)` (`src/src/lib.rs:612`): lock
the shared cell (the locking itself is invisible to this sequential
embedding) and run `send_helper` with `msg = Some(m)` on the protected
stream. -/
def senderSend (s : WebSocketStream) (m : Message) (o : SendOracle) : SendStep :=
  send_helper s (some m) o

/-- `WebSocketSender::close(msg)` (`src/src/lib.rs:624`):
`self.send(Message::Close(msg))`. -/
def senderClose (s : WebSocketStream) (f : Option CloseFrame) (o : SendOracle) :
    SendStep :=
  senderSend s (Message.close f) o

/-- The state of an in-flight `Send` future: the stream's flags and the
still-pending message. -/
structure SendState where
  ws : WebSocketStream
  msg : Option Message
  deriving DecidableEq, Repr

/-- Repeatedly poll a `Send` future, one oracle per poll, collecting
every engine operation performed across the whole run (the run may
re-poll even after the future resolved, which only re-flushes). -/
def runSendOps : SendState → List SendOracle → List EngineOp
  | _, [] => []
  | st, o :: os =>
    let step := send_helper st.ws st.msg o
    step.ops ++ runSendOps { ws := step.ws, msg := step.msg } os

/-- Recognises the engine write operation. -/
def isWriteOp : EngineOp → Bool
  | .writeOp _ => true
  | _ => false

/-- Recognises the engine flush operation. -/
def isFlushOp : EngineOp → Bool
  | .flushOp => true
  | _ => false

/-- Number of engine write operations in a trace. -/
def writeCount (ops : List EngineOp) : Nat :=
  ops.countP isWriteOp

/-- A reference-counted pointer to a shared cell (`Arc<Shared<S>>`),
identified by the address of its allocation. -/
structure ArcRef where
  cellId : Nat
  deriving DecidableEq, Repr

/-- `Arc::ptr_eq`: two references are equal iff they point at the same
allocation. -/
def arcPtrEq (a b : ArcRef) : Bool :=
  a.cellId == b.cellId

/-- `WebSocketSender` (`src/src/lib.rs:606`): holds a reference to the
shared cell. -/
structure WebSocketSender where
  shared : ArcRef
  deriving DecidableEq, Repr

/-- `WebSocketReceiver` (`src/src/lib.rs:697`): holds a reference to the
shared cell. -/
structure WebSocketReceiver where
  shared : ArcRef
  deriving DecidableEq, Repr

/-- `WebSocketSender::is_pair_of` (`src/src/lib.rs:633`):
`Arc::ptr_eq(&self.shared, &other.shared)`. -/
def WebSocketSender.is_pair_of (snd : WebSocketSender)
    (rcv : WebSocketReceiver) : Bool :=
  arcPtrEq snd.shared rcv.shared

/-- `WebSocketReceiver::is_pair_of` (`src/src/lib.rs:704`):
`Arc::ptr_eq(&self.shared, &other.shared)`. -/
def WebSocketReceiver.is_pair_of (rcv : WebSocketReceiver)
    (snd : WebSocketSender) : Bool :=
  arcPtrEq rcv.shared snd.shared

/-- The reference-counting environment for shared cells: for each
allocation address, the number of live `Arc` references to it and the
`WebSocketStream` stored in the cell. -/
structure ArcHeap where
  refcount : Nat → Nat
  contents : Nat → WebSocketStream

/-- Result of `WebSocketStream::split`. -/
structure SplitResult where
  sender : WebSocketSender
  receiver : WebSocketReceiver
  heap : ArcHeap

/-- `WebSocketStream::split` (`src/src/lib.rs:328`): move the stream into
a freshly allocated shared cell (`Arc::new`, then one `clone`), so the
cell holds the stream with exactly two references — the sender's and
the receiver's. `fresh` is the address of the new allocation; a caller
supplies an address with no live references. -/
def split (h : ArcHeap) (s : WebSocketStream) (fresh : Nat) : SplitResult :=
  { sender := { shared := { cellId := fresh } },
    receiver := { shared := { cellId := fresh } },
    heap :=
      { refcount := fun i => if i = fresh then 2 else h.refcount i,
        contents := fun i => if i = fresh then s else h.contents i } }

/-- Outcome of `WebSocketStream::reunite`: `Ok(stream)`, or
`Err((sender, receiver))` with the handles returned unchanged, or a
panic (the `expect("reunite the stream")` on a failed
`Arc::try_unwrap`). -/
inductive ReuniteResult where
  | ok (stream : WebSocketStream)
  | err (snd : WebSocketSender) (rcv : WebSocketReceiver)
  | panicked
  deriving DecidableEq, Repr

/-- `WebSocketStream::reunite` (`src/src/lib.rs:342`): if
`sender.is_pair_of(&receiver)`, drop the receiver (releasing its
reference) and `Arc::try_unwrap` the sender's reference, which succeeds
exactly when that leaves the sender as the only reference — i.e. when
the cell's reference count was 2; a failed `try_unwrap` hits the
`expect` and panics. Otherwise return `Err` with both handles
unchanged, touching no reference count. -/
def reunite (h : ArcHeap) (snd : WebSocketSender) (rcv : WebSocketReceiver) :
    ReuniteResult :=
  if snd.is_pair_of rcv then
    if h.refcount snd.shared.cellId = 2 then
      .ok (h.contents snd.shared.cellId)
    else
      .panicked
  else
    .err snd rcv

/-- The inbound-side driver of the repository's test `run_connection`
(`src/tests/communication.rs:10`): poll the stream for the next
message, retrying on suspension, collecting every yielded item until
the sequence reports end-of-sequence; returns the collected items and
the final flag state. One engine read outcome is consumed per
`poll_next` attempt. -/
def drain : WebSocketStream → List (WsResult Message) →
    List (WsResult Message) × WebSocketStream
  | s, [] => ([], s)
  | s, r :: rs =>
    let st := poll_next s r
    match st.result with
    | .ready none => ([], st.ws)
    | .ready (some item) =>
        let rest := drain st.ws rs
        (item :: rest.1, rest.2)
    | .pending => drain st.ws rs

/-- Modelled from the spec: the engine-side inbound outcomes of the
end-to-end scenario (spec section 8 together with the repository's test
`communication`, `src/tests/communication.rs:27`). The engine itself is
an out-of-scope external collaborator (spec section 1); after the
initiator sends the nine text messages "1".."9" and then closes, the
acceptor's engine read step yields the nine text messages, then the
close message of the close handshake, and thereafter reports the
cleanly-closed condition. The repository's test pins the observable
count down by asserting that exactly 10 messages are collected. -/
def commTrace : List (WsResult Message) :=
  [.ok (.text "1"), .ok (.text "2"), .ok (.text "3"),
   .ok (.text "4"), .ok (.text "5"), .ok (.text "6"),
   .ok (.text "7"), .ok (.text "8"), .ok (.text "9"),
   .ok (.close none), .err .connectionClosed]

/-- The nine text messages of the end-to-end scenario. -/
def nineTexts : List Message :=
  [.text "1", .text "2", .text "3", .text "4", .text "5",
   .text "6", .text "7", .text "8", .text "9"]

/-- An allocation environment with no live references, used to
instantiate the split/reunite statements. -/
def emptyHeap : ArcHeap :=
  { refcount := fun _ => 0, contents := fun _ => initialStream }

/- Helper lemmas -/

/-- Once `ended` is set, `poll_next` short-circuits: end-of-sequence,
unchanged state, no engine call. -/
theorem poll_next_ended (s : WebSocketStream) (hs : s.ended = true)
    (r : WsResult Message) :
    poll_next s r = { result := Poll.ready none, ws := s, ops := [] } := by
  simp [poll_next, hs]

/-- `poll_flush` performs exactly one engine flush. -/
theorem poll_flush_ops (s : WebSocketStream) (fr : WsResult Unit) :
    (poll_flush s fr).ops = [EngineOp.flushOp] := by
  rcases h : cvt fr with _ | r <;> simp [poll_flush, h]

/-- With `ready` set, `poll_ready` is an immediate success with no
engine call. -/
theorem poll_ready_true (s : WebSocketStream) (fr : WsResult Unit)
    (hs : s.ready = true) :
    poll_ready s fr = { result := Poll.ready (.ok ()), ws := s, ops := [] } := by
  simp [poll_ready, hs]

/-- With `ready` unset, `poll_ready` performs exactly one engine flush. -/
theorem poll_ready_false_ops (s : WebSocketStream) (fr : WsResult Unit)
    (hs : s.ready = false) :
    (poll_ready s fr).ops = [EngineOp.flushOp] := by
  rcases h : cvt fr with _ | r <;> simp [poll_ready, hs, h]

/-- `start_send` performs exactly one engine write, of the given
message. -/
theorem start_send_ops (s : WebSocketStream) (m : Message) (wr : WsResult Unit) :
    (start_send s m wr).ops = [EngineOp.writeOp m] := by
  rcases wr with _ | (_ | _ | (_ | _) | _) <;> rfl

/-- `writeCount` distributes over concatenation. -/
theorem writeCount_append (a b : List EngineOp) :
    writeCount (a ++ b) = writeCount a + writeCount b := by
  simp [writeCount, List.countP_append]

/-- A poll of the compound send with no pending message keeps the
message slot empty. -/
theorem send_helper_none_msg (s : WebSocketStream) (o : SendOracle) :
    (send_helper s none o).msg = none := rfl

/-- A poll of the compound send with no pending message performs exactly
one engine flush. -/
theorem send_helper_none_ops (s : WebSocketStream) (o : SendOracle) :
    (send_helper s none o).ops = [EngineOp.flushOp] :=
  poll_flush_ops s o.finalFlush

/- Claim theorems -/

/-- C1: once `poll_next` has reported end-of-sequence or emitted a
terminal error the `ended` flag is set, and with `ended` set every
subsequent `poll_next` returns end-of-sequence with the state unchanged
and without invoking the engine's read step, whatever the engine would
have reported. -/
theorem pollNext_fusing (s : WebSocketStream) (r : WsResult Message) :
    (s.ended = true →
      poll_next s r = { result := Poll.ready none, ws := s, ops := [] }) ∧
    ((poll_next s r).result = Poll.ready none → (poll_next s r).ws.ended = true) ∧
    (∀ e, (poll_next s r).result = Poll.ready (some (WsResult.err e)) →
      (poll_next s r).ws.ended = true) := by
  by_cases hs : s.ended = true
  · exact ⟨fun _ => poll_next_ended s hs r,
      fun _ => by simp [poll_next_ended s hs r, hs],
      fun e _ => by simp [poll_next_ended s hs r, hs]⟩
  · refine ⟨fun h => absurd h hs, fun h => ?_, fun e h => ?_⟩
    · rcases r with v | (_ | _ | (_ | _) | _) <;> simp_all [poll_next, cvt]
    · rcases r with v | (_ | _ | (_ | _) | _) <;> simp_all [poll_next, cvt] <;>
        subst h <;> rfl

/-- Witness for C1 at a concrete ended state and a concrete engine
outcome. -/
theorem pollNext_fusing_witness :
    poll_next { closing := false, ended := true, ready := true }
        (WsResult.ok (Message.text "x"))
      = { result := Poll.ready none,
          ws := { closing := false, ended := true, ready := true }, ops := [] } :=
  (pollNext_fusing { closing := false, ended := true, ready := true }
    (WsResult.ok (Message.text "x"))).1 rfl

/-- C2 counterexample: the engine's `AlreadyClosed` condition — an error
value the engine distinguishes as "already closed" — propagates as an
error from both `poll_flush` and `poll_close` instead of resolving as
success. -/
theorem alreadyClosed_counterexample :
    (poll_flush initialStream (WsResult.err WsError.alreadyClosed)).result
        = Poll.ready (WsResult.err WsError.alreadyClosed) ∧
    (poll_close initialStream (WsResult.err WsError.alreadyClosed)).result
        = Poll.ready (WsResult.err WsError.alreadyClosed) := by
  decide

/-- C2 amended: only the cleanly-closed condition (`ConnectionClosed`)
reported during `poll_flush` or `poll_close` resolves as success; the
distinct `AlreadyClosed` condition propagates as an error from both. -/
theorem flushClose_closed_amended (s : WebSocketStream) :
    (poll_flush s (WsResult.err WsError.connectionClosed)).result
        = Poll.ready (WsResult.ok ()) ∧
    (poll_close s (WsResult.err WsError.connectionClosed)).result
        = Poll.ready (WsResult.ok ()) ∧
    (poll_flush s (WsResult.err WsError.alreadyClosed)).result
        = Poll.ready (WsResult.err WsError.alreadyClosed) ∧
    (poll_close s (WsResult.err WsError.alreadyClosed)).result
        = Poll.ready (WsResult.err WsError.alreadyClosed) := by
  rcases s with ⟨c, e, r⟩
  cases c <;> cases e <;> cases r <;> decide

/-- C3 counterexample: a terminal flush error during `poll_ready` does
not leave `ready` unset — the flag is set to `true` while the error is
propagated. -/
theorem pollReady_error_counterexample :
    (poll_ready { closing := false, ended := false, ready := false }
        (WsResult.err WsError.other)).result
      = Poll.ready (WsResult.err WsError.other) ∧
    (poll_ready { closing := false, ended := false, ready := false }
        (WsResult.err WsError.other)).ws.ready = true := by
  decide

/-- C3 amended: `poll_ready` with `ready` already set succeeds
immediately with no engine interaction; otherwise it performs the
engine's flush step, a successful flush sets `ready`, a terminal flush
error is propagated and also sets `ready`, and only a would-block
suspension leaves `ready` unset. -/
theorem pollReady_amended (s : WebSocketStream) (fr : WsResult Unit) :
    (s.ready = true →
      poll_ready s fr = { result := Poll.ready (.ok ()), ws := s, ops := [] }) ∧
    (s.ready = false → (poll_ready s fr).ops = [EngineOp.flushOp]) ∧
    (s.ready = false →
      poll_ready s (.ok ()) =
        { result := Poll.ready (.ok ()), ws := { s with ready := true },
          ops := [EngineOp.flushOp] }) ∧
    (s.ready = false → ∀ e, e ≠ WsError.io IoErrorKind.wouldBlock →
      poll_ready s (.err e) =
        { result := Poll.ready (.err e), ws := { s with ready := true },
          ops := [EngineOp.flushOp] }) ∧
    (s.ready = false →
      poll_ready s (.err (.io .wouldBlock))
        = { result := Poll.pending, ws := s, ops := [EngineOp.flushOp] }) := by
  refine ⟨fun h => poll_ready_true s fr h,
    fun h => poll_ready_false_ops s fr h,
    fun h => by simp [poll_ready, h, cvt],
    fun h e he => ?_,
    fun h => by simp [poll_ready, h, cvt]⟩
  rcases e with _ | _ | (_ | _) | _
  · simp [poll_ready, h, cvt]
  · simp [poll_ready, h, cvt]
  · exact absurd rfl he
  · simp [poll_ready, h, cvt]
  · simp [poll_ready, h, cvt]

/-- Witness for C3's amended statement: a terminal flush error at a
not-ready state propagates and sets `ready`. -/
theorem pollReady_amended_witness :
    poll_ready { closing := false, ended := false, ready := false }
        (WsResult.err WsError.other)
      = { result := Poll.ready (WsResult.err WsError.other),
          ws := { closing := false, ended := false, ready := true },
          ops := [EngineOp.flushOp] } :=
  (pollReady_amended { closing := false, ended := false, ready := false }
    (WsResult.err WsError.other)).2.2.2.1 rfl WsError.other (by decide)

/-- C4: `start_send` on an engine I/O would-block condition succeeds and
clears `ready`; on engine success it sets `ready`; on any other engine
error it sets `ready` and propagates the error. One engine write of the
given message is performed in every case. -/
theorem startSend_spec (s : WebSocketStream) (m : Message) :
    start_send s m (WsResult.err (WsError.io IoErrorKind.wouldBlock))
        = { result := WsResult.ok (), ws := { s with ready := false },
            ops := [EngineOp.writeOp m] } ∧
    start_send s m (WsResult.ok ())
        = { result := WsResult.ok (), ws := { s with ready := true },
            ops := [EngineOp.writeOp m] } ∧
    (∀ e, e ≠ WsError.io IoErrorKind.wouldBlock →
      start_send s m (WsResult.err e)
        = { result := WsResult.err e, ws := { s with ready := true },
            ops := [EngineOp.writeOp m] }) := by
  refine ⟨rfl, rfl, fun e he => ?_⟩
  rcases e with _ | _ | (_ | _) | _
  · rfl
  · rfl
  · exact absurd rfl he
  · rfl
  · rfl

/-- Witness for C4 at a concrete state, message and non-would-block
error. -/
theorem startSend_spec_witness :
    start_send initialStream (Message.text "x") (WsResult.err WsError.other)
      = { result := WsResult.err WsError.other, ws := initialStream,
          ops := [EngineOp.writeOp (Message.text "x")] } :=
  (startSend_spec initialStream (Message.text "x")).2.2 WsError.other (by decide)

/-- C5 counterexample: in the end-to-end scenario the acceptor's inbound
sequence yields 10 items, not 9 — the nine text messages are followed
by the close message of the close handshake (the repository's test
asserts `messages.len() == 10`). -/
theorem communication_count_counterexample :
    (drain initialStream commTrace).1.length = 10 ∧
    (drain initialStream commTrace).1 ≠ nineTexts.map WsResult.ok := by
  decide

/-- C5 amended: the acceptor's inbound sequence yields the 9 text
messages "1".."9" in order followed by one close message — 10 items in
total — and thereafter reports end-of-sequence on every further poll. -/
theorem communication_amended :
    (drain initialStream commTrace).1
        = nineTexts.map WsResult.ok ++ [WsResult.ok (Message.close none)] ∧
    (drain initialStream commTrace).2.ended = true ∧
    (∀ r, (poll_next (drain initialStream commTrace).2 r).result
        = Poll.ready none) := by
  refine ⟨by decide, by decide, fun r => ?_⟩
  rw [poll_next_ended (drain initialStream commTrace).2 (by decide) r]

/-- C7: `poll_close` forces `ready` at the start of every call and makes
one engine call — a close-frame send in phase 1 (`closing` unset), a
flush in phase 2 (`closing` set); a would-block outcome sets `closing`
and suspends, success or the cleanly-closed condition is immediate
success, and any other error ends the attempt in failure. -/
theorem pollClose_spec (s : WebSocketStream) (e : WsResult Unit) :
    (poll_close s e).ws.ready = true ∧
    (poll_close s e).ops
        = [if s.closing then EngineOp.flushOp else EngineOp.closeOp] ∧
    (poll_close s (WsResult.ok ())).result = Poll.ready (WsResult.ok ()) ∧
    (poll_close s (WsResult.err WsError.connectionClosed)).result
        = Poll.ready (WsResult.ok ()) ∧
    poll_close s (WsResult.err (WsError.io IoErrorKind.wouldBlock))
        = { result := Poll.pending, ws := { s with ready := true, closing := true },
            ops := [if s.closing then EngineOp.flushOp else EngineOp.closeOp] } ∧
    (∀ e2, e2 ≠ WsError.connectionClosed →
      e2 ≠ WsError.io IoErrorKind.wouldBlock →
      (poll_close s (WsResult.err e2)).result = Poll.ready (WsResult.err e2)) := by
  refine ⟨?_, ?_, rfl, rfl, rfl, fun e2 h1 h2 => ?_⟩
  · rcases e with _ | (_ | _ | (_ | _) | _) <;> rfl
  · rcases e with _ | (_ | _ | (_ | _) | _) <;> rfl
  · rcases e2 with _ | _ | (_ | _) | _
    · exact absurd rfl h1
    · rfl
    · exact absurd rfl h2
    · rfl
    · rfl

/-- Witness for C7: a phase-1 close attempt ending in failure on a
non-would-block, non-closed error. -/
theorem pollClose_spec_witness :
    (poll_close initialStream (WsResult.err WsError.other)).result
        = Poll.ready (WsResult.err WsError.other) :=
  (pollClose_spec initialStream (WsResult.err WsError.other)).2.2.2.2.2
    WsError.other (by decide) (by decide)

/-- C6: immediately after `split` the two handles form a pair in both
directions, and `reunite` on that exact pair succeeds and recovers the
stream that was split; a sender and a receiver from two different
`split` calls are not a pair, and `reunite` on them fails as a
failed-precondition result carrying both handles back unchanged — and
such a mismatched `reunite` never panics, whatever the reference counts
of the shared cells. -/
theorem split_reunite_law (h : ArcHeap) (s s2 : WebSocketStream)
    (f1 f2 : Nat) (hne : f1 ≠ f2) :
    ((split h s f1).sender.is_pair_of (split h s f1).receiver = true) ∧
    ((split h s f1).receiver.is_pair_of (split h s f1).sender = true) ∧
    (reunite (split h s f1).heap (split h s f1).sender (split h s f1).receiver
        = ReuniteResult.ok s) ∧
    (reunite (split (split h s f1).heap s2 f2).heap (split h s f1).sender
        (split (split h s f1).heap s2 f2).receiver
      = ReuniteResult.err (split h s f1).sender
          (split (split h s f1).heap s2 f2).receiver) ∧
    (∀ (h2 : ArcHeap) (snd : WebSocketSender) (rcv : WebSocketReceiver),
      snd.is_pair_of rcv = false → reunite h2 snd rcv = ReuniteResult.err snd rcv) := by
  refine ⟨?_, ?_, ?_, ?_, fun h2 snd rcv hp => ?_⟩
  · simp [split, WebSocketSender.is_pair_of, arcPtrEq]
  · simp [split, WebSocketReceiver.is_pair_of, arcPtrEq]
  · simp [split, reunite, WebSocketSender.is_pair_of, arcPtrEq]
  · simp [split, reunite, WebSocketSender.is_pair_of, arcPtrEq, hne]
  · simp [reunite, hp]

/-- Witness for C6: a concrete split whose pair reunites to the original
stream. -/
theorem split_reunite_witness :
    reunite (split emptyHeap initialStream 0).heap
        (split emptyHeap initialStream 0).sender
        (split emptyHeap initialStream 0).receiver
      = ReuniteResult.ok initialStream :=
  (split_reunite_law emptyHeap initialStream initialStream 0 1 (by decide)).2.2.1

/-- C9: the pairing check between a sender and a receiver is symmetric:
both directions compare the identity of the shared cell. -/
theorem isPairOf_symm (snd : WebSocketSender) (rcv : WebSocketReceiver) :
    snd.is_pair_of rcv = rcv.is_pair_of snd := by
  by_cases h : snd.shared.cellId = rcv.shared.cellId
  · simp [WebSocketSender.is_pair_of, WebSocketReceiver.is_pair_of, arcPtrEq, h]
  · simp [WebSocketSender.is_pair_of, WebSocketReceiver.is_pair_of, arcPtrEq, h,
      Ne.symm h]

/-- C8: `close(msg)` on the unified stream and on the sender handle is
exactly `send(Message::Close(msg))`; a compound-send poll with no
pending message performs only the flush step; with a pending message
the first engine operation is the flush of `poll_ready` unless `ready`
already holds, in which case it is the `start_send` write; and whenever
the compound send resolves successfully, its final engine operation was
a flush and the message has been consumed. -/
theorem send_compound_spec (s : WebSocketStream) (f : Option CloseFrame)
    (m : Message) (o : SendOracle) :
    closeWith s f o = sendMessage s (Message.close f) o ∧
    senderClose s f o = senderSend s (Message.close f) o ∧
    (send_helper s none o).ops = [EngineOp.flushOp] ∧
    (sendMessage s m o).ops.head?
        = some (if s.ready then EngineOp.writeOp m else EngineOp.flushOp) ∧
    ((sendMessage s m o).result = Poll.ready (WsResult.ok ()) →
      (sendMessage s m o).ops.getLast? = some EngineOp.flushOp ∧
      (sendMessage s m o).msg = none) := by
  refine ⟨rfl, rfl, send_helper_none_ops s o, ?_, ?_⟩
  · rcases o with ⟨rf, wr, ff⟩
    cases hs : s.ready <;>
      rcases rf with _ | (_ | _ | (_ | _) | _) <;>
      rcases wr with _ | (_ | _ | (_ | _) | _) <;>
      rcases ff with _ | (_ | _ | (_ | _) | _) <;>
      simp [sendMessage, send_helper, poll_ready, start_send, poll_flush, cvt, hs]
  · intro hres
    rcases o with ⟨rf, wr, ff⟩
    cases hs : s.ready <;>
      rcases rf with _ | (_ | _ | (_ | _) | _) <;>
      rcases wr with _ | (_ | _ | (_ | _) | _) <;>
      rcases ff with _ | (_ | _ | (_ | _) | _) <;>
      simp_all [sendMessage, send_helper, poll_ready, start_send, poll_flush, cvt]

/-- Witness for C8: a fully successful compound send at a ready state
writes and then flushes, consuming the message. -/
theorem send_compound_spec_witness :
    (sendMessage initialStream (Message.text "1")
        { readyFlush := .ok (), writeRes := .ok (), finalFlush := .ok () }).ops.getLast?
      = some EngineOp.flushOp ∧
    (sendMessage initialStream (Message.text "1")
        { readyFlush := .ok (), writeRes := .ok (), finalFlush := .ok () }).msg
      = none :=
  (send_compound_spec initialStream none (Message.text "1")
    { readyFlush := .ok (), writeRes := .ok (), finalFlush := .ok () }).2.2.2.2 rfl

/-- One compound-send poll either leaves the pending message in place
and performs no engine write, or consumes it and performs at most one
engine write. -/
theorem send_helper_write_bound (s : WebSocketStream) (msg : Option Message)
    (o : SendOracle) :
    ((send_helper s msg o).msg = msg ∧ writeCount (send_helper s msg o).ops = 0) ∨
    ((send_helper s msg o).msg = none ∧ writeCount (send_helper s msg o).ops ≤ 1) := by
  rcases msg with _ | m
  · exact Or.inr ⟨send_helper_none_msg s o, by rw [send_helper_none_ops s o]; decide⟩
  · rcases o with ⟨rf, wr, ff⟩
    cases hs : s.ready <;>
      rcases rf with _ | (_ | _ | (_ | _) | _) <;>
      rcases wr with _ | (_ | _ | (_ | _) | _) <;>
      rcases ff with _ | (_ | _ | (_ | _) | _) <;>
      simp [send_helper, poll_ready, start_send, poll_flush, cvt, hs,
        writeCount, isWriteOp]

/-- Every poll of a send whose message is already consumed performs
exactly one flush: the whole remaining run contains no engine write and
only flush operations. -/
theorem runSendOps_none_aux (ws : WebSocketStream) (os : List SendOracle) :
    writeCount (runSendOps { ws := ws, msg := none } os) = 0 ∧
    (runSendOps { ws := ws, msg := none } os).all isFlushOp = true := by
  induction os generalizing ws with
  | nil => simp [runSendOps, writeCount]
  | cons o os ih =>
    rw [show runSendOps { ws := ws, msg := none } (o :: os)
        = (send_helper ws none o).ops ++
          runSendOps { ws := (send_helper ws none o).ws,
                       msg := (send_helper ws none o).msg } os from rfl,
      send_helper_none_ops ws o, send_helper_none_msg ws o]
    refine ⟨?_, ?_⟩
    · rw [writeCount_append, (ih (send_helper ws none o).ws).1]
      decide
    · rw [List.all_append, (ih (send_helper ws none o).ws).2]
      decide

/-- C10: across any run of polls of one compound send, the engine write
step runs at most once; once the message slot is empty, no poll of the
run ever writes again — every engine operation of such a run is a
flush. -/
theorem send_write_at_most_once (ws ws2 : WebSocketStream) (m : Message)
    (os os2 : List SendOracle) :
    writeCount (runSendOps { ws := ws, msg := some m } os) ≤ 1 ∧
    writeCount (runSendOps { ws := ws2, msg := none } os2) = 0 ∧
    (runSendOps { ws := ws2, msg := none } os2).all isFlushOp = true := by
  refine ⟨?_, (runSendOps_none_aux ws2 os2).1, (runSendOps_none_aux ws2 os2).2⟩
  induction os generalizing ws with
  | nil => simp [runSendOps, writeCount]
  | cons o os ih =>
    rw [show runSendOps { ws := ws, msg := some m } (o :: os)
        = (send_helper ws (some m) o).ops ++
          runSendOps { ws := (send_helper ws (some m) o).ws,
                       msg := (send_helper ws (some m) o).msg } os from rfl,
      writeCount_append]
    rcases send_helper_write_bound ws (some m) o with ⟨hmsg, hcnt⟩ | ⟨hmsg, hcnt⟩
    · rw [hmsg, hcnt]
      have hrest := ih (send_helper ws (some m) o).ws
      omega
    · rw [hmsg]
      have hrest := (runSendOps_none_aux (send_helper ws (some m) o).ws os).1
      omega

end AsyncWs
